import Mathlib

/-!
Verification of `src/pipe_resize.c` (PipeSizeTool) against its specification.

The program is shallowly embedded: the OS (open / fcntl / strerror) is an
oracle given as a structure of functions, and a run of the program produces
an exit code, the standard output, the standard error and the trace of
OS calls (open, fcntl, close) it performed.  `strtoul` is modelled for the
program's target platform (Linux/LP64: `unsigned long` is 64 bits wide,
`unsigned`/`int` are 32 bits wide).
-/

namespace PipeResize

/-- `ULONG_MAX` on LP64 (64-bit `unsigned long`). -/
def ULONG_MAX : Nat := 2 ^ 64 - 1

/-- Modulus of the 32-bit `unsigned` type. -/
def UINT_MOD : Nat := 2 ^ 32

/-- `INT_MAX`, the signed 32-bit maximum. -/
def INT_MAX : Nat := 2147483647

/-- C `isspace` in the default locale: the six standard white-space characters. -/
def isCSpace (c : Char) : Bool :=
  c = ' ' || c = '\t' || c = '\n' || c = Char.ofNat 11 || c = Char.ofNat 12 || c = '\r'

/-- Value of a base-10 digit string (most significant digit first). -/
def digitsValue (ds : List Char) : Nat :=
  ds.foldl (fun a c => a * 10 + (c.toNat - 48)) 0

/-- C `strtoul(s, &endptr, 10)` on LP64.  Returns the converted value
(in `[0, ULONG_MAX]`) and the number of characters consumed
(`endptr - s`).  Leading white-space is skipped, one optional `+`/`-`
sign is accepted (a `-` negates in unsigned 64-bit arithmetic), the
digit run is converted, clamping to `ULONG_MAX` on overflow; if there is
no digit, nothing is consumed and the value is 0. -/
def strtoul10 (s : String) : Nat × Nat :=
  let cs := s.data
  let nws := (cs.takeWhile isCSpace).length
  let rest := cs.drop nws
  let signLen : Nat :=
    match rest with
    | c :: _ => if c = '+' || c = '-' then 1 else 0
    | [] => 0
  let neg : Bool :=
    match rest with
    | c :: _ => c = '-'
    | [] => false
  let digits := (rest.drop signLen).takeWhile Char.isDigit
  if digits.isEmpty then (0, 0)
  else
    let raw := digitsValue digits
    let v :=
      if raw > ULONG_MAX then ULONG_MAX
      else if neg then (ULONG_MAX + 1 - raw) % (ULONG_MAX + 1)
      else raw
    (v, nws + signLen + digits.length)

/-- The two `fcntl` requests the program uses. -/
inductive FcntlCmd
  | getPipeSz
  | setPipeSz (arg : Int)
deriving DecidableEq, Repr

/-- An OS call performed by the program, in program order. -/
inductive Event
  | openCall (path : String)
  | fcntlCall (fd : Int) (cmd : FcntlCmd)
  | closeCall (fd : Int)
deriving DecidableEq, Repr

/-- The OS oracle: result of `open(path, O_RDWR)` (`-1` is failure),
the `strerror(errno)` text after a failed open, the result of an
`fcntl` call on a descriptor (`-1` is failure), and the
`strerror(errno)` text after a failed `fcntl`. -/
structure OS where
  openRet : String → Int
  openErr : String → String
  fcntlRet : Int → FcntlCmd → Int
  fcntlErr : Int → FcntlCmd → String

/-- Observable outcome of one program run. -/
structure RunResult where
  exitCode : Nat
  stdout : String
  stderr : String
  events : List Event
deriving DecidableEq, Repr

/-- The C cast `(int)u` of a 32-bit unsigned value, gcc semantics
(reduce modulo 2^32 into `[-2^31, 2^31)`). -/
def castToInt (u : Nat) : Int :=
  if u ≤ INT_MAX then (u : Int) else (u : Int) - (UINT_MOD : Int)

/-- Common tail of `main` from line 40 on: perform the `fcntl` call,
on `-1` report and exit 4, otherwise print the result and exit 0;
the descriptor is closed on both paths. -/
def finishFcntl (os : OS) (fd : Int) (cmd : FcntlCmd) (evs : List Event) : RunResult :=
  let ret := os.fcntlRet fd cmd
  let evs2 := evs ++ [Event.fcntlCall fd cmd]
  if ret = -1 then
    { exitCode := 4, stdout := ""
      stderr := "Operation failed: " ++ os.fcntlErr fd cmd ++ "\n"
      events := evs2 ++ [Event.closeCall fd] }
  else
    { exitCode := 0, stdout := toString ret ++ "\n", stderr := ""
      events := evs2 ++ [Event.closeCall fd] }

/-- The embedded `main` of `src/pipe_resize.c`, line by line:
argument-count check (exit 1), `open` (exit 2 on failure), for a third
argument `strtoul` into a 32-bit `unsigned` then the
`*endptr != '\0' || size > INT_MAX` check (exit 3), the
`F_SETPIPE_SZ`/`F_GETPIPE_SZ` call, and the common tail. -/
def main (os : OS) (argv : List String) : RunResult :=
  if argv.length < 2 || argv.length > 3 then
    { exitCode := 1, stdout := ""
      stderr := "Usage: " ++ argv.headD "" ++ " <fifo_path> [new_fifo_size]\n"
      events := [] }
  else
    let path := argv.getD 1 ""
    let fd := os.openRet path
    if fd = -1 then
      { exitCode := 2, stdout := ""
        stderr := "Failed to open " ++ path ++ ": " ++ os.openErr path ++ "\n"
        events := [Event.openCall path] }
    else
      if argv.length = 3 then
        let sizeStr := argv.getD 2 ""
        let p := strtoul10 sizeStr
        let size := p.1 % UINT_MOD
        if p.2 ≠ sizeStr.length ∨ size > INT_MAX then
          { exitCode := 3, stdout := ""
            stderr := "The size given is either invalid or too big\n"
            events := [Event.openCall path, Event.closeCall fd] }
        else
          finishFcntl os fd (FcntlCmd.setPipeSz (castToInt size)) [Event.openCall path]
      else
        finishFcntl os fd FcntlCmd.getPipeSz [Event.openCall path]

/-- Recogniser for `close` events. -/
def isCloseEv : Event → Bool
  | Event.closeCall _ => true
  | _ => false

/-- A concrete well-behaved OS: every open yields descriptor 3, a size
query reports 65536, a set request is honoured exactly. -/
def osOk : OS where
  openRet := fun _ => 3
  openErr := fun _ => "No such file or directory"
  fcntlRet := fun _ cmd =>
    match cmd with
    | FcntlCmd.getPipeSz => 65536
    | FcntlCmd.setPipeSz n => n
  fcntlErr := fun _ _ => "Operation not permitted"

/-- A concrete OS on which every open fails. -/
def osOpenFail : OS where
  openRet := fun _ => -1
  openErr := fun _ => "No such file or directory"
  fcntlRet := fun _ _ => 0
  fcntlErr := fun _ _ => ""

/-- A concrete OS on which opens succeed but every fcntl call fails. -/
def osFcntlFail : OS where
  openRet := fun _ => 3
  openErr := fun _ => ""
  fcntlRet := fun _ _ => -1
  fcntlErr := fun _ _ => "Invalid argument"

/-! ### Helper lemmas -/

lemma str_data_append (a b : String) : (a ++ b).data = a.data ++ b.data := by
  cases a; cases b; rfl

/-- A run with exactly one positional argument. -/
lemma main_pair (os : OS) (a b : String) :
    main os [a, b] =
      if os.openRet b = -1 then
        { exitCode := 2, stdout := ""
          stderr := "Failed to open " ++ b ++ ": " ++ os.openErr b ++ "\n"
          events := [Event.openCall b] }
      else finishFcntl os (os.openRet b) FcntlCmd.getPipeSz [Event.openCall b] := by
  simp [main]

/-- A run with two positional arguments. -/
lemma main_triple (os : OS) (a b c : String) :
    main os [a, b, c] =
      if os.openRet b = -1 then
        { exitCode := 2, stdout := ""
          stderr := "Failed to open " ++ b ++ ": " ++ os.openErr b ++ "\n"
          events := [Event.openCall b] }
      else if (strtoul10 c).2 ≠ c.length ∨ (strtoul10 c).1 % UINT_MOD > INT_MAX then
        { exitCode := 3, stdout := ""
          stderr := "The size given is either invalid or too big\n"
          events := [Event.openCall b, Event.closeCall (os.openRet b)] }
      else
        finishFcntl os (os.openRet b)
          (FcntlCmd.setPipeSz (castToInt ((strtoul10 c).1 % UINT_MOD)))
          [Event.openCall b] := by
  simp [main]

/-- The events of the common fcntl tail, on both of its branches. -/
lemma finishFcntl_events (os : OS) (fd : Int) (cmd : FcntlCmd) (evs : List Event) :
    (finishFcntl os fd cmd evs).events =
      evs ++ [Event.fcntlCall fd cmd, Event.closeCall fd] := by
  simp only [finishFcntl]
  split <;> simp

/-- If a fcntl event appears in a run's trace, the run took the common
fcntl tail with exactly that descriptor and command. -/
lemma main_fcntl_inv (os : OS) (argv : List String) (fd : Int) (cmd : FcntlCmd)
    (hmem : Event.fcntlCall fd cmd ∈ (main os argv).events) :
    main os argv = finishFcntl os fd cmd [Event.openCall (argv.getD 1 "")] := by
  rcases argv with _ | ⟨a, argv⟩
  · simp [main] at hmem
  rcases argv with _ | ⟨b, argv⟩
  · simp [main] at hmem
  rcases argv with _ | ⟨c, argv⟩
  · rw [main_pair] at hmem ⊢
    by_cases hopen : os.openRet b = -1
    · rw [if_pos hopen] at hmem
      simp at hmem
    · rw [if_neg hopen] at hmem ⊢
      rw [finishFcntl_events] at hmem
      simp at hmem
      obtain ⟨h1, h2⟩ := hmem
      subst h1
      subst h2
      simp
  rcases argv with _ | ⟨d, argv⟩
  · rw [main_triple] at hmem ⊢
    by_cases hopen : os.openRet b = -1
    · rw [if_pos hopen] at hmem
      simp at hmem
    · rw [if_neg hopen] at hmem ⊢
      by_cases hcond : (strtoul10 c).2 ≠ c.length ∨ (strtoul10 c).1 % UINT_MOD > INT_MAX
      · rw [if_pos hcond] at hmem
        simp at hmem
      · rw [if_neg hcond] at hmem ⊢
        rw [finishFcntl_events] at hmem
        simp at hmem
        obtain ⟨h1, h2⟩ := hmem
        subst h1
        subst h2
        simp
  · simp [main] at hmem

/-! ### Claims -/

/-- C2: with an argument count outside {2, 3} the program writes the usage
message to standard error, exits with code 1, and performs no OS call at
all (in particular no open). -/
theorem claim_C2 (os : OS) (argv : List String)
    (h : argv.length < 2 ∨ 3 < argv.length) :
    (main os argv).exitCode = 1 ∧
    (main os argv).stderr =
      "Usage: " ++ argv.headD "" ++ " <fifo_path> [new_fifo_size]\n" ∧
    (main os argv).events = [] := by
  have hb : (argv.length < 2 || argv.length > 3) = true := by
    rcases h with h | h <;> simp [h]
  rw [main, if_pos hb]
  exact ⟨rfl, rfl, rfl⟩

/-- Witness for C2 at the concrete invocation `["tool"]`. -/
theorem claim_C2_witness :
    (([("tool" : String)].length < 2 ∨ 3 < [("tool" : String)].length) ∧
      (main osOk ["tool"]).exitCode = 1 ∧
      (main osOk ["tool"]).stderr =
        "Usage: " ++ ["tool"].headD "" ++ " <fifo_path> [new_fifo_size]\n" ∧
      (main osOk ["tool"]).events = []) :=
  ⟨Or.inl (by decide), claim_C2 osOk ["tool"] (Or.inl (by decide))⟩

/-- C1 is contradicted by the code: on the size string "99999999999" (the
spec's own example) the full base-10 parse consumes the entire string and
yields 99999999999 > INT_MAX, yet the program does not exit 3: the value is
first truncated to the 32-bit `unsigned` (1215752191, which passes the
`size > INT_MAX` check), a set control call is issued, and the run exits 0.
Likewise "4294967296" is truncated to 0 and accepted. -/
theorem claim_C1_bug :
    strtoul10 "99999999999" = (99999999999, ("99999999999" : String).length) ∧
    99999999999 > INT_MAX ∧
    (main osOk ["tool", "p", "99999999999"]).exitCode = 0 ∧
    Event.fcntlCall 3 (FcntlCmd.setPipeSz 1215752191) ∈
      (main osOk ["tool", "p", "99999999999"]).events ∧
    strtoul10 "4294967296" = (4294967296, ("4294967296" : String).length) ∧
    4294967296 > INT_MAX ∧
    (main osOk ["tool", "p", "4294967296"]).exitCode = 0 ∧
    Event.fcntlCall 3 (FcntlCmd.setPipeSz 0) ∈
      (main osOk ["tool", "p", "4294967296"]).events := by
  decide

/-- C10: the parse step accepts some strings that are not clean base-10
numerals: the empty string is accepted with value 0, and "-0", "+5" and
" 5" are accepted with their converted values, each issuing a set control
call instead of exiting 3. -/
theorem claim_C10 :
    (main osOk ["tool", "p", ""]).exitCode ≠ 3 ∧
    Event.fcntlCall 3 (FcntlCmd.setPipeSz 0) ∈
      (main osOk ["tool", "p", ""]).events ∧
    (main osOk ["tool", "p", "-0"]).exitCode ≠ 3 ∧
    Event.fcntlCall 3 (FcntlCmd.setPipeSz 0) ∈
      (main osOk ["tool", "p", "-0"]).events ∧
    (main osOk ["tool", "p", "+5"]).exitCode ≠ 3 ∧
    Event.fcntlCall 3 (FcntlCmd.setPipeSz 5) ∈
      (main osOk ["tool", "p", "+5"]).events ∧
    (main osOk ["tool", "p", " 5"]).exitCode ≠ 3 ∧
    Event.fcntlCall 3 (FcntlCmd.setPipeSz 5) ∈
      (main osOk ["tool", "p", " 5"]).events := by
  decide

/-- C3: whenever the open fails (returns -1), the program exits with
code 2, the diagnostic on standard error contains both the supplied path
and the OS error text, and no control (fcntl) call is issued. -/
theorem claim_C3 (os : OS) (argv : List String)
    (h2 : 2 ≤ argv.length) (h3 : argv.length ≤ 3)
    (ho : os.openRet (argv.getD 1 "") = -1) :
    (main os argv).exitCode = 2 ∧
    (main os argv).stderr =
      "Failed to open " ++ argv.getD 1 "" ++ ": " ++
        os.openErr (argv.getD 1 "") ++ "\n" ∧
    (argv.getD 1 "").data <:+: (main os argv).stderr.data ∧
    (os.openErr (argv.getD 1 "")).data <:+: (main os argv).stderr.data ∧
    ∀ fd cmd, Event.fcntlCall fd cmd ∉ (main os argv).events := by
  have key : main os argv =
      { exitCode := 2, stdout := ""
        stderr := "Failed to open " ++ argv.getD 1 "" ++ ": " ++
          os.openErr (argv.getD 1 "") ++ "\n"
        events := [Event.openCall (argv.getD 1 "")] } := by
    have hlen : argv.length = 2 ∨ argv.length = 3 := by omega
    rcases hlen with hl | hl
    · obtain ⟨a, b, rfl⟩ := List.length_eq_two.mp hl
      have hgd : [a, b].getD 1 "" = b := rfl
      rw [hgd] at ho ⊢
      rw [main_pair, if_pos ho]
    · obtain ⟨a, b, c, rfl⟩ := List.length_eq_three.mp hl
      have hgd : [a, b, c].getD 1 "" = b := rfl
      rw [hgd] at ho ⊢
      rw [main_triple, if_pos ho]
  rw [key]
  refine ⟨rfl, rfl, ?_, ?_, ?_⟩
  · refine ⟨("Failed to open " : String).data,
      (": " ++ os.openErr (argv.getD 1 "") ++ "\n").data, ?_⟩
    simp [str_data_append, List.append_assoc]
  · refine ⟨("Failed to open " ++ argv.getD 1 "" ++ ": " : String).data,
      ("\n" : String).data, ?_⟩
    simp [str_data_append, List.append_assoc]
  · intro fd cmd
    simp

/-- Witness for C3 at an OS on which every open fails. -/
theorem claim_C3_witness :
    ((2 ≤ [("tool" : String), "nosuch"].length ∧
        [("tool" : String), "nosuch"].length ≤ 3 ∧
        osOpenFail.openRet (["tool", "nosuch"].getD 1 "") = -1) ∧
      (main osOpenFail ["tool", "nosuch"]).exitCode = 2 ∧
      (main osOpenFail ["tool", "nosuch"]).stderr =
        "Failed to open " ++ ["tool", "nosuch"].getD 1 "" ++ ": " ++
          osOpenFail.openErr (["tool", "nosuch"].getD 1 "") ++ "\n" ∧
      (["tool", "nosuch"].getD 1 "").data <:+:
        (main osOpenFail ["tool", "nosuch"]).stderr.data ∧
      (osOpenFail.openErr (["tool", "nosuch"].getD 1 "")).data <:+:
        (main osOpenFail ["tool", "nosuch"]).stderr.data ∧
      ∀ fd cmd, Event.fcntlCall fd cmd ∉
        (main osOpenFail ["tool", "nosuch"]).events) :=
  ⟨⟨by decide, by decide, by decide⟩,
    claim_C3 osOpenFail ["tool", "nosuch"] (by decide) (by decide) (by decide)⟩

/-- C4: whenever the control call the run issued returns the failure
sentinel -1, the program exits with code 4, standard error carries the
"Operation failed" diagnostic with the OS error text, and the descriptor
is closed exactly once. -/
theorem claim_C4 (os : OS) (argv : List String) (fd : Int) (cmd : FcntlCmd)
    (hmem : Event.fcntlCall fd cmd ∈ (main os argv).events)
    (hfail : os.fcntlRet fd cmd = -1) :
    (main os argv).exitCode = 4 ∧
    (main os argv).stderr = "Operation failed: " ++ os.fcntlErr fd cmd ++ "\n" ∧
    (main os argv).events.filter isCloseEv = [Event.closeCall fd] := by
  rw [main_fcntl_inv os argv fd cmd hmem]
  simp only [finishFcntl]
  rw [if_pos hfail]
  refine ⟨rfl, rfl, ?_⟩
  simp [isCloseEv]

/-- Witness for C4 at an OS whose fcntl calls all fail. -/
theorem claim_C4_witness :
    ((Event.fcntlCall 3 FcntlCmd.getPipeSz ∈
        (main osFcntlFail ["tool", "p"]).events ∧
      osFcntlFail.fcntlRet 3 FcntlCmd.getPipeSz = -1) ∧
      (main osFcntlFail ["tool", "p"]).exitCode = 4 ∧
      (main osFcntlFail ["tool", "p"]).stderr =
        "Operation failed: " ++ osFcntlFail.fcntlErr 3 FcntlCmd.getPipeSz ++ "\n" ∧
      (main osFcntlFail ["tool", "p"]).events.filter isCloseEv =
        [Event.closeCall 3]) :=
  ⟨⟨by decide, by decide⟩,
    claim_C4 osFcntlFail ["tool", "p"] 3 FcntlCmd.getPipeSz (by decide) (by decide)⟩

/-- C5: whenever the control call the run issued succeeds (is not -1),
the program exits with code 0, standard output is exactly the decimal
rendering of the call's result followed by a newline, standard error is
empty, and the descriptor is closed exactly once. -/
theorem claim_C5 (os : OS) (argv : List String) (fd : Int) (cmd : FcntlCmd)
    (hmem : Event.fcntlCall fd cmd ∈ (main os argv).events)
    (hsucc : os.fcntlRet fd cmd ≠ -1) :
    (main os argv).exitCode = 0 ∧
    (main os argv).stdout = toString (os.fcntlRet fd cmd) ++ "\n" ∧
    (main os argv).stderr = "" ∧
    (main os argv).events.filter isCloseEv = [Event.closeCall fd] := by
  rw [main_fcntl_inv os argv fd cmd hmem]
  simp only [finishFcntl]
  rw [if_neg hsucc]
  refine ⟨rfl, rfl, rfl, ?_⟩
  simp [isCloseEv]

/-- Witness for C5 at the well-behaved OS. -/
theorem claim_C5_witness :
    ((Event.fcntlCall 3 FcntlCmd.getPipeSz ∈ (main osOk ["tool", "p"]).events ∧
      osOk.fcntlRet 3 FcntlCmd.getPipeSz ≠ -1) ∧
      (main osOk ["tool", "p"]).exitCode = 0 ∧
      (main osOk ["tool", "p"]).stdout =
        toString (osOk.fcntlRet 3 FcntlCmd.getPipeSz) ++ "\n" ∧
      (main osOk ["tool", "p"]).stderr = "" ∧
      (main osOk ["tool", "p"]).events.filter isCloseEv = [Event.closeCall 3]) :=
  ⟨⟨by decide, by decide⟩,
    claim_C5 osOk ["tool", "p"] 3 FcntlCmd.getPipeSz (by decide) (by decide)⟩

/-- C6: with exactly one positional argument on an openable path, the run
issues exactly one control call, the get request (never a set request),
and when the OS reports the pipe's current buffer size the run exits 0
printing that non-negative size. -/
theorem claim_C6 (os : OS) (prog path : String) (bufSize : Nat)
    (ho : os.openRet path ≠ -1)
    (hg : os.fcntlRet (os.openRet path) FcntlCmd.getPipeSz = (bufSize : Int)) :
    (main os [prog, path]).events =
      [Event.openCall path,
        Event.fcntlCall (os.openRet path) FcntlCmd.getPipeSz,
        Event.closeCall (os.openRet path)] ∧
    (∀ fd arg, Event.fcntlCall fd (FcntlCmd.setPipeSz arg) ∉
      (main os [prog, path]).events) ∧
    (main os [prog, path]).exitCode = 0 ∧
    (main os [prog, path]).stdout = toString bufSize ++ "\n" := by
  have hne : os.fcntlRet (os.openRet path) FcntlCmd.getPipeSz ≠ -1 := by
    rw [hg]
    omega
  rw [main_pair, if_neg ho]
  simp only [finishFcntl]
  rw [if_neg hne]
  refine ⟨rfl, ?_, rfl, ?_⟩
  · intro fd arg
    simp
  · rw [hg]
    rfl

/-- Witness for C6 at the well-behaved OS, whose pipes report 65536. -/
theorem claim_C6_witness :
    ((osOk.openRet "p" ≠ -1 ∧
      osOk.fcntlRet (osOk.openRet "p") FcntlCmd.getPipeSz = ((65536 : Nat) : Int)) ∧
      (main osOk ["tool", "p"]).events =
        [Event.openCall "p",
          Event.fcntlCall (osOk.openRet "p") FcntlCmd.getPipeSz,
          Event.closeCall (osOk.openRet "p")] ∧
      (∀ fd arg, Event.fcntlCall fd (FcntlCmd.setPipeSz arg) ∉
        (main osOk ["tool", "p"]).events) ∧
      (main osOk ["tool", "p"]).exitCode = 0 ∧
      (main osOk ["tool", "p"]).stdout = toString (65536 : Nat) ++ "\n") :=
  ⟨⟨by decide, by decide⟩,
    claim_C6 osOk "tool" "p" 65536 (by decide) (by decide)⟩

/-- C7: for N ≤ INT_MAX given as a string that the base-10 parse consumes
entirely with value N, the run on an openable path issues the set request
with exactly the value N (the narrowing cast preserves it), and - when the
OS either rejects or rounds up, as the kernel contract says - either exits
0 printing the resulting value ≥ N, or exits 4 on rejection. -/
theorem claim_C7 (os : OS) (prog path s : String) (N : Nat)
    (hN : N ≤ INT_MAX)
    (hs : strtoul10 s = (N, s.length))
    (ho : os.openRet path ≠ -1)
    (hk : os.fcntlRet (os.openRet path) (FcntlCmd.setPipeSz (N : Int)) = -1 ∨
      (N : Int) ≤ os.fcntlRet (os.openRet path) (FcntlCmd.setPipeSz (N : Int))) :
    Event.fcntlCall (os.openRet path) (FcntlCmd.setPipeSz (N : Int)) ∈
      (main os [prog, path, s]).events ∧
    (((main os [prog, path, s]).exitCode = 0 ∧
      (main os [prog, path, s]).stdout =
        toString (os.fcntlRet (os.openRet path) (FcntlCmd.setPipeSz (N : Int))) ++
          "\n" ∧
      (N : Int) ≤ os.fcntlRet (os.openRet path) (FcntlCmd.setPipeSz (N : Int))) ∨
      ((main os [prog, path, s]).exitCode = 4 ∧
        os.fcntlRet (os.openRet path) (FcntlCmd.setPipeSz (N : Int)) = -1)) := by
  have hlt : N < UINT_MOD := lt_of_le_of_lt hN (by norm_num [INT_MAX, UINT_MOD])
  have hmod : N % UINT_MOD = N := Nat.mod_eq_of_lt hlt
  have hcast : castToInt N = (N : Int) := by rw [castToInt, if_pos hN]
  have hcond : ¬((strtoul10 s).2 ≠ s.length ∨ (strtoul10 s).1 % UINT_MOD > INT_MAX) := by
    rw [hs]
    simp [hmod]
    omega
  rw [main_triple, if_neg ho, if_neg hcond, hs]
  simp only [hmod, hcast]
  by_cases hret : os.fcntlRet (os.openRet path) (FcntlCmd.setPipeSz (N : Int)) = -1
  · simp only [finishFcntl]
    rw [if_pos hret]
    exact ⟨by simp, Or.inr ⟨rfl, hret⟩⟩
  · simp only [finishFcntl]
    rw [if_neg hret]
    refine ⟨by simp, Or.inl ⟨rfl, rfl, ?_⟩⟩
    rcases hk with hk | hk
    · exact absurd hk hret
    · exact hk

/-- Witness for C7 at the well-behaved OS with the string "4096". -/
theorem claim_C7_witness :
    (((4096 : Nat) ≤ INT_MAX ∧
      strtoul10 "4096" = (4096, ("4096" : String).length) ∧
      osOk.openRet "p" ≠ -1 ∧
      (osOk.fcntlRet (osOk.openRet "p")
          (FcntlCmd.setPipeSz ((4096 : Nat) : Int)) = -1 ∨
        ((4096 : Nat) : Int) ≤ osOk.fcntlRet (osOk.openRet "p")
          (FcntlCmd.setPipeSz ((4096 : Nat) : Int)))) ∧
      (Event.fcntlCall (osOk.openRet "p")
          (FcntlCmd.setPipeSz ((4096 : Nat) : Int)) ∈
        (main osOk ["tool", "p", "4096"]).events ∧
      (((main osOk ["tool", "p", "4096"]).exitCode = 0 ∧
        (main osOk ["tool", "p", "4096"]).stdout =
          toString (osOk.fcntlRet (osOk.openRet "p")
            (FcntlCmd.setPipeSz ((4096 : Nat) : Int))) ++ "\n" ∧
        ((4096 : Nat) : Int) ≤ osOk.fcntlRet (osOk.openRet "p")
          (FcntlCmd.setPipeSz ((4096 : Nat) : Int))) ∨
        ((main osOk ["tool", "p", "4096"]).exitCode = 4 ∧
          osOk.fcntlRet (osOk.openRet "p")
            (FcntlCmd.setPipeSz ((4096 : Nat) : Int)) = -1)))) :=
  ⟨⟨by decide, by decide, by decide, Or.inr (by decide)⟩,
    claim_C7 osOk "tool" "p" "4096" 4096 (by decide) (by decide) (by decide)
      (Or.inr (by decide))⟩

/-- C8: on every path reached after a successful open (parse failure,
control-call failure, success), the trace contains exactly one close
event, and it closes the descriptor the open returned. -/
theorem claim_C8 (os : OS) (argv : List String)
    (h2 : 2 ≤ argv.length) (h3 : argv.length ≤ 3)
    (ho : os.openRet (argv.getD 1 "") ≠ -1) :
    (main os argv).events.filter isCloseEv =
      [Event.closeCall (os.openRet (argv.getD 1 ""))] := by
  have hlen : argv.length = 2 ∨ argv.length = 3 := by omega
  rcases hlen with hl | hl
  · obtain ⟨a, b, rfl⟩ := List.length_eq_two.mp hl
    have hgd : [a, b].getD 1 "" = b := rfl
    rw [hgd] at ho ⊢
    rw [main_pair, if_neg ho, finishFcntl_events]
    simp [isCloseEv]
  · obtain ⟨a, b, c, rfl⟩ := List.length_eq_three.mp hl
    have hgd : [a, b, c].getD 1 "" = b := rfl
    rw [hgd] at ho ⊢
    rw [main_triple, if_neg ho]
    by_cases hcond : (strtoul10 c).2 ≠ c.length ∨ (strtoul10 c).1 % UINT_MOD > INT_MAX
    · rw [if_pos hcond]
      simp [isCloseEv]
    · rw [if_neg hcond, finishFcntl_events]
      simp [isCloseEv]

/-- Witness for C8 at the well-behaved OS. -/
theorem claim_C8_witness :
    ((2 ≤ [("tool" : String), "p"].length ∧
      [("tool" : String), "p"].length ≤ 3 ∧
      osOk.openRet (["tool", "p"].getD 1 "") ≠ -1) ∧
      (main osOk ["tool", "p"]).events.filter isCloseEv =
        [Event.closeCall (osOk.openRet (["tool", "p"].getD 1 ""))]) :=
  ⟨⟨by decide, by decide, by decide⟩,
    claim_C8 osOk ["tool", "p"] (by decide) (by decide) (by decide)⟩

/-- C9: the printed output of a size query is a deterministic function of
the OS-reported buffer size: two query runs in which the OS reports the
same size print the same text and exit with the same code. -/
theorem claim_C9 (os1 os2 : OS) (p1 p2 f1 f2 : String)
    (h1 : os1.openRet f1 ≠ -1) (h2 : os2.openRet f2 ≠ -1)
    (hsz : os1.fcntlRet (os1.openRet f1) FcntlCmd.getPipeSz =
      os2.fcntlRet (os2.openRet f2) FcntlCmd.getPipeSz) :
    (main os1 [p1, f1]).stdout = (main os2 [p2, f2]).stdout ∧
    (main os1 [p1, f1]).exitCode = (main os2 [p2, f2]).exitCode := by
  rw [main_pair, main_pair, if_neg h1, if_neg h2]
  by_cases hc : os2.fcntlRet (os2.openRet f2) FcntlCmd.getPipeSz = -1 <;>
    simp [finishFcntl, hsz, hc]

/-- Witness for C9: the same query against the well-behaved OS twice. -/
theorem claim_C9_witness :
    ((osOk.openRet "p" ≠ -1 ∧ osOk.openRet "p" ≠ -1 ∧
      osOk.fcntlRet (osOk.openRet "p") FcntlCmd.getPipeSz =
        osOk.fcntlRet (osOk.openRet "p") FcntlCmd.getPipeSz) ∧
      (main osOk ["tool", "p"]).stdout = (main osOk ["tool", "p"]).stdout ∧
      (main osOk ["tool", "p"]).exitCode = (main osOk ["tool", "p"]).exitCode) :=
  ⟨⟨by decide, by decide, rfl⟩,
    claim_C9 osOk osOk "tool" "tool" "p" "p" (by decide) (by decide) rfl⟩

end PipeResize
